import Mathlib

/-!
Verification of the node-bootstrap script `setup.py` of the
schedmd-slurm-gcp-v6-controller module.  Each Python function that a claim
depends on is shallowly embedded as a pure Lean function over an explicit
state (lists of fstab lines, file ownership records, script outcomes, event
traces), and the claimed properties are proved or refuted about those
embeddings.
-/

namespace SlurmSetup

/-- Python's `pat in s` substring test, on explicit character lists. -/
def strContains (s pat : String) : Bool :=
  (List.range (s.data.length + 1)).any (fun i => pat.data.isPrefixOf (s.data.drop i))

/-! ## Mount-table reconciliation (`mount_save_state_disk`, `mount_munge_key_disk`)

`/etc/fstab` is modelled as the list of lines returned by `readlines()`:
each element carries its trailing newline.  The functions below embed the
fstab-editing portion of the two mount primitives (setup.py lines 193-198
and 215-220): build `fstab_entry`, test list membership against the lines,
and append a formatted line when absent. -/

/-- fstab transform of `mount_save_state_disk`: entry is
`f"{disk_name} {mount_point} {fs_type}"`, appended line is
`f"{fstab_entry} defaults 0 0\n"`. -/
def mount_save_state_disk_fstab (disk_name mount_point fs_type : String)
    (fstab : List String) : List String :=
  let fstab_entry := disk_name ++ " " ++ mount_point ++ " " ++ fs_type
  if fstab_entry ∈ fstab then fstab
  else fstab ++ [fstab_entry ++ " defaults 0 0\n"]

/-- fstab transform of `mount_munge_key_disk`: entry is
`f"{state_disk_dir} {mount_point}"`, appended line is
`f"{fstab_entry} none bind 0 0\n"`. -/
def mount_munge_key_disk_fstab (state_disk_dir mount_point : String)
    (fstab : List String) : List String :=
  let fstab_entry := state_disk_dir ++ " " ++ mount_point
  if fstab_entry ∈ fstab then fstab
  else fstab ++ [fstab_entry ++ " none bind 0 0\n"]

/-! ## Cluster registration (`setup_controller`, lines 401-408) -/

/-- Outcome of the `sacctmgr add cluster` post-processing. -/
inductive RegOutcome
  | success
  | raised
deriving DecidableEq, Repr

/-- Embeds lines 405-408 of `setup_controller`: if `"already exists"` occurs
in the captured stdout, log and continue; otherwise if the return code is
greater than 1, `check_returncode()` raises. -/
def register_cluster (returncode : Int) (stdout : String) : RegOutcome :=
  if strContains stdout "already exists" then .success
  else if returncode > 1 then .raised
  else .success

end SlurmSetup

namespace SlurmSetup

/-! ## Recursive ownership remap (`_my_chown`, `recursive_chown`, lines 469-489)

The filesystem state a remap acts on is the ownership record of each file:
`os.walk` enumerates every descendant of the root exactly once, and
`_my_chown` touches only the entry it is given, so the remapped subtree is
the root's record together with the pointwise image of the descendants'
records. -/

/-- Ownership record of one file or directory. -/
structure FsNode where
  uid : Int
  gid : Int
deriving DecidableEq, Repr

/-- Lines 469-478: compute `my_uid`/`my_gid` with the `-1` sentinel and call
`os.chown` only when one of them is not `-1`; `os.chown` leaves an id
unchanged when passed `-1` for it. -/
def _my_chown (uid gid previous_uid previous_gid : Int) (st : FsNode) : FsNode :=
  let my_uid := if previous_uid = -1 ∨ st.uid = previous_uid then uid else -1
  let my_gid := if previous_gid = -1 ∨ st.gid = previous_gid then gid else -1
  if my_uid ≠ -1 ∨ my_gid ≠ -1 then
    { uid := if my_uid = -1 then st.uid else my_uid,
      gid := if my_gid = -1 then st.gid else my_gid }
  else st

/-- Lines 480-489: `_my_chown` on the root, then on every walked descendant. -/
def recursive_chown (uid gid previous_uid previous_gid : Int)
    (root : FsNode) (descendants : List FsNode) : FsNode × List FsNode :=
  (_my_chown uid gid previous_uid previous_gid root,
   descendants.map (_my_chown uid gid previous_uid previous_gid))

/-! ## Hybrid identity migration (`change_uid_gid_slurm`, lines 492-515) -/

/-- The four fixed directories remapped by the migration. -/
inductive SlurmDir
  | home
  | etc
  | log
  | slurm
deriving DecidableEq, Repr

/-- One `recursive_chown` invocation issued by the migration: the directory
and the arguments passed. -/
structure ChownCall where
  dir : SlurmDir
  uid : Int
  gid : Int
  previous_uid : Int
  previous_gid : Int
deriving DecidableEq, Repr

/-- How a run of `change_uid_gid_slurm` ends: an early `return` after a
failed `groupmod` or `usermod` (logged, not raised), or normal completion
with the list of `recursive_chown` calls made. -/
inductive MigrationResult
  | abortedGroupmod
  | abortedUsermod
  | done (chowns : List ChownCall)
deriving DecidableEq, Repr

/-- Lines 511-515: the `if need_chown` block.  The home directory is
remapped with the default `-1` guards (unguarded); the other three carry
the previous ids. -/
def migration_chown_calls (need_chown : Bool) (uid gid cur_uid cur_gid : Int) :
    List ChownCall :=
  if need_chown then
    [⟨.home, uid, gid, -1, -1⟩,
     ⟨.etc, uid, gid, cur_uid, cur_gid⟩,
     ⟨.log, uid, gid, cur_uid, cur_gid⟩,
     ⟨.slurm, uid, gid, cur_uid, cur_gid⟩]
  else []

/-- Lines 503-515: the uid half of the migration, entered with the value of
`need_chown` left by the gid half. -/
def change_uid_gid_slurm_uid_step (need_chown : Bool)
    (gid cur_uid uid usermod_rc cur_gid : Int) : MigrationResult :=
  if cur_uid ≠ uid then
    if usermod_rc ≠ 0 then .abortedUsermod
    else .done (migration_chown_calls true uid gid cur_uid cur_gid)
  else .done (migration_chown_calls need_chown uid gid cur_uid cur_gid)

/-- Lines 492-515: `change_uid_gid_slurm`, with the current ids read from
the OS, the configured target ids, and the return codes of `groupmod` and
`usermod` as inputs. -/
def change_uid_gid_slurm (cur_gid gid cur_uid uid groupmod_rc usermod_rc : Int) :
    MigrationResult :=
  if cur_gid ≠ gid then
    if groupmod_rc ≠ 0 then .abortedGroupmod
    else change_uid_gid_slurm_uid_step true gid cur_uid uid usermod_rc cur_gid
  else change_uid_gid_slurm_uid_step false gid cur_uid uid usermod_rc cur_gid

/-- The `recursive_chown` calls a migration run performed. -/
def migration_chowns : MigrationResult → List ChownCall
  | .done l => l
  | _ => []

/-- C1 helper: the saved-state fstab line that two identical invocations
leave duplicated. -/
def c1_line : String := "/dev/disk/by-id/google-d /var/spool/slurm ext4 defaults 0 0\n"

/-- C1 helper: the bind-mount fstab line that two identical invocations
leave duplicated. -/
def c1_bind_line : String := "/var/spool/slurm/munge /etc/munge none bind 0 0\n"

/-! ## Hook-script execution (`run_custom_scripts`, lines 130-181) -/

/-- Per-category timeout keys of the active configuration (`lookup().cfg`);
`none` models an unset key, so `cfg.get(key, 300)` is `(·.getD 300)`. -/
structure TimeoutCfg where
  controller_startup_scripts_timeout : Option Int
  compute_startup_scripts_timeout : Option Int
  login_startup_scripts_timeout : Option Int
deriving DecidableEq, Repr

/-- Lines 156-163: pick the category timeout by substring tests on the
script path, with `cfg.get`'s default of 300. -/
def script_timeout_raw (cfg : TimeoutCfg) (script : String) : Int :=
  if strContains script "/controller.d/" then
    cfg.controller_startup_scripts_timeout.getD 300
  else if strContains script "/compute.d/" || strContains script "/nodeset.d/" then
    cfg.compute_startup_scripts_timeout.getD 300
  else if strContains script "/login.d/" then
    cfg.login_startup_scripts_timeout.getD 300
  else 300

/-- Line 164: `timeout = None if not timeout or timeout < 0 else timeout`
(`not timeout` on an integer is `timeout == 0`); `none` means unbounded. -/
def normalize_timeout (timeout : Int) : Option Int :=
  if timeout = 0 ∨ timeout < 0 then none else some timeout

/-- The effective timeout used for a script. -/
def script_timeout (cfg : TimeoutCfg) (script : String) : Option Int :=
  normalize_timeout (script_timeout_raw cfg script)

/-- Resolution of one category key: `cfg.get(key, 300)` then line 164. -/
def resolve_timeout (configured : Option Int) : Option Int :=
  normalize_timeout (configured.getD 300)

/-- What a hook script does when executed. -/
inductive ScriptOutcome
  | exits (returncode : Int)
  | timesOut
  | notExecutable
deriving DecidableEq, Repr

/-- A discovered hook script: its name and its behaviour when run. -/
structure Script where
  name : String
  outcome : ScriptOutcome
deriving DecidableEq, Repr

/-- The exception classes that can escape the loop body of
`run_custom_scripts`: `result.check_returncode()` on a non-zero exit,
`subprocess.TimeoutExpired`, and `OSError` for a non-executable file. -/
inductive RunFailure
  | calledProcessError (script : String) (returncode : Int)
  | timeoutExpired (script : String)
  | osError (script : String)
deriving DecidableEq, Repr

/-- Outcome of one iteration of the loop at lines 155-172 for one script. -/
def script_failure (s : Script) : Option RunFailure :=
  match s.outcome with
  | .exits rc =>
    if rc = 0 then none else some (.calledProcessError s.name rc)
  | .timesOut => some (.timeoutExpired s.name)
  | .notExecutable => some (.osError s.name)

/-- The `for script in custom_scripts` loop: returns the scripts attempted,
in order, and the first failure (which the surrounding `except` blocks
re-raise).  A failure stops the loop; the remaining scripts never run. -/
def run_custom_scripts_loop : List Script → List String × Option RunFailure
  | [] => ([], none)
  | s :: rest =>
    match script_failure s with
    | none =>
      let r := run_custom_scripts_loop rest
      (s.name :: r.1, r.2)
    | some f => ([s.name], some f)

/-! ## Symlink reconciliation (`configure_dirs`, lines 357-364) -/

/-- State of the directory entry at a link path.  A symlink records its
target and whether that target currently resolves; `Path.exists()` follows
symlinks, so it is false for a dangling symlink. -/
inductive LinkState
  | absent
  | symlink (target : String) (resolves : Bool)
  | otherFile
deriving DecidableEq, Repr

/-- `Path.exists()` at the link path. -/
def path_exists : LinkState → Bool
  | .absent => false
  | .symlink _ resolves => resolves
  | .otherFile => true

/-- `Path.is_symlink()` at the link path. -/
def path_is_symlink : LinkState → Bool
  | .symlink _ _ => true
  | _ => false

/-- `Path.symlink_to`: `os.symlink` raises `FileExistsError` whenever any
entry — including a dangling symlink — is already present at the link
path. -/
def symlink_to (target : String) (target_exists : Bool) :
    LinkState → Except String LinkState
  | .absent => .ok (.symlink target target_exists)
  | _ => .error "FileExistsError"

/-- Lines 362-364 of `configure_dirs`, for one `(sl, tgt)` pair:
`if sl.exists() and sl.is_symlink(): sl.unlink()` then `sl.symlink_to(tgt)`. -/
def configure_dirs_symlink (target : String) (target_exists : Bool)
    (sl : LinkState) : Except String LinkState :=
  let sl := if path_exists sl && path_is_symlink sl then .absent else sl
  symlink_to target target_exists sl

/-! ## `main` (lines 621-637) -/

/-- Observable steps of `main`, including the steps of `end_motd`
(lines 98-116). -/
inductive MainEvent
  | startMotd
  | getConfig
  | setupCloudOps
  | configureDirs
  | provision (role : String)
  | logFatalUnknownRole (role : String)
  | endMotdBanner
  | wallSetupComplete (role : String)
  | wallHomeNotice
deriving DecidableEq, Repr

/-- `end_motd()` with the default `broadcast=True`: overwrite `/etc/motd`
with the plain header, wall the completion message, and for any
non-controller role wall the home-directory notice. -/
def end_motd_events (instance_role : String) : List MainEvent :=
  [.endMotdBanner, .wallSetupComplete instance_role] ++
    (if instance_role = "controller" then [] else [.wallHomeNotice])

/-- The dict dispatch of lines 629-635: role-keyed lookup whose fallback
lambda only calls `log.fatal` (which logs and returns). -/
def role_dispatch (instance_role : String) : List MainEvent :=
  if instance_role = "controller" then [.provision "controller"]
  else if instance_role = "compute" then [.provision "compute"]
  else if instance_role = "login" then [.provision "login"]
  else [.logFatalUnknownRole instance_role]

/-- `main` as the sequence of steps it performs, given the role carried by
the fetched configuration. -/
def main_events (instance_role : String) : List MainEvent :=
  [.startMotd, .getConfig, .setupCloudOps, .configureDirs] ++
    role_dispatch instance_role ++ end_motd_events instance_role

/-! ## slurmd_feature fetch in `setup_compute` (lines 523-541) -/

/-- Result of `util.instance_metadata("attributes/slurmd_feature")`: a
returned value, or any raised exception. -/
inductive MetadataFetch
  | value (v : String)
  | raises (e : String)
deriving DecidableEq, Repr

/-- Lines 530-534: the `try`/`except Exception` collapsing every raised
exception to `None`. -/
def fetch_slurmd_feature : MetadataFetch → Option String
  | .value v => some v
  | .raises _ => none

/-- Lines 523-539: the `SLURMD_OPTIONS` list assembled by `setup_compute`,
given the conf-server host string, the port, and the metadata fetch
result. -/
def slurmd_options (slurmctld_host port : String) (fetch : MetadataFetch) :
    List String :=
  let base := ["--conf-server=\"" ++ slurmctld_host ++ ":" ++ port ++ "\""]
  match fetch_slurmd_feature fetch with
  | some f => base ++ ["--conf=\"Feature=" ++ f ++ "\"", "-Z"]
  | none => base

/-! ## Config acquisition (`get_config`, lines 598-612) -/

/-- Outcome of one `util.fetch_config` attempt: the classified
`DeffetiveStoredConfigError`, any other exception, or a parsed
configuration (abstracted to an id). -/
inductive FetchOutcome
  | notReady
  | otherError
  | ok (cfg : Nat)
deriving DecidableEq, Repr

/-- Whether an attempt yielded a configuration. -/
def FetchOutcome.isOk : FetchOutcome → Bool
  | .ok _ => true
  | _ => false

/-- Observable steps of `get_config`. -/
inductive GCEvent
  | warnNotReady
  | logUnexpected
  | sleep (seconds : Nat)
  | installConfig (cfg : Nat)
  | setHybridSetup
deriving DecidableEq, Repr

/-- The log event of a failed attempt: `log.warning` for the not-ready
error, `log.exception` for anything else. -/
def fetch_fail_event : FetchOutcome → GCEvent
  | .otherError => .logUnexpected
  | _ => .warnNotReady

/-- Recognizes backoff events. -/
def GCEvent.isSleep : GCEvent → Bool
  | .sleep _ => true
  | _ => false

/-- The `while True` loop of `get_config`: attempt outcomes are consumed
from `source` in order; on success the configuration is installed
(`util.update_config`), the hybrid flag set when a bucket was given, and
the loop exits before the `time.sleep(5)`; on either exception class the
failure is logged and the fixed 5-second backoff runs.  `fuel` bounds how
many iterations are modelled; `none` means the loop was still running. -/
def get_config_loop (bucket : Option String) :
    (Nat → FetchOutcome) → Nat → Option (List GCEvent)
  | _, 0 => none
  | source, fuel + 1 =>
    match source 0 with
    | .ok cfg =>
      some ([.installConfig cfg] ++
        if bucket.isSome then [.setHybridSetup] else [])
    | o =>
      (get_config_loop bucket (fun i => source (i + 1)) fuel).map
        (fun tr => fetch_fail_event o :: .sleep 5 :: tr)

/-- The events logged by the first `k` (all failing) attempts: each failed
attempt logs its failure and then backs off for the fixed 5 seconds. -/
def retry_trace (source : Nat → FetchOutcome) : Nat → List GCEvent
  | 0 => []
  | k + 1 =>
    fetch_fail_event (source 0) :: .sleep 5 ::
      retry_trace (fun i => source (i + 1)) k

end SlurmSetup

/-- C1: the claim says repeated invocation leaves exactly one matching line in
/etc/fstab.  In fact the membership test compares the bare
`"device mountpoint fstype"` entry against full lines that end in
`" defaults 0 0\n"` (resp. `" none bind 0 0\n"`), so it never matches and each
invocation appends another copy: starting from an empty table, two identical
invocations of either primitive leave two matching lines, not one. -/
theorem C1_fstab_duplicated :
    (SlurmSetup.mount_save_state_disk_fstab "/dev/disk/by-id/google-d"
        "/var/spool/slurm" "ext4"
        (SlurmSetup.mount_save_state_disk_fstab "/dev/disk/by-id/google-d"
          "/var/spool/slurm" "ext4" [])).count SlurmSetup.c1_line = 2 ∧
    (SlurmSetup.mount_munge_key_disk_fstab "/var/spool/slurm/munge" "/etc/munge"
        (SlurmSetup.mount_munge_key_disk_fstab "/var/spool/slurm/munge" "/etc/munge"
          [])).count SlurmSetup.c1_bind_line = 2 := by
  constructor <;> rfl

/-- C4: an error is escalated by the cluster-registration step iff the return
code exceeds 1 and the captured stdout does not contain "already exists";
otherwise (including every stdout containing "already exists") the step
returns normally. -/
theorem C4_register_cluster_escalation (returncode : Int) (stdout : String) :
    SlurmSetup.register_cluster returncode stdout = .raised ↔
      (returncode > 1 ∧ SlurmSetup.strContains stdout "already exists" = false) := by
  rcases h : SlurmSetup.strContains stdout "already exists"
  · by_cases hrc : returncode > 1 <;>
      simp [SlurmSetup.register_cluster, h, hrc]
  · simp [SlurmSetup.register_cluster, h]

/-- C5: the effective timeout of a hook script is the category-specific
configured value when positive, no timeout at all when the configured value
is zero or negative, and the 300-second default when the category key is
unset; the category key is selected from the script's path. -/
theorem C5_timeout_resolution (cfg : SlurmSetup.TimeoutCfg) :
    (∀ script, SlurmSetup.strContains script "/controller.d/" = true →
      SlurmSetup.script_timeout cfg script =
        SlurmSetup.resolve_timeout cfg.controller_startup_scripts_timeout) ∧
    (∀ script, SlurmSetup.strContains script "/controller.d/" = false →
      (SlurmSetup.strContains script "/compute.d/" = true ∨
        SlurmSetup.strContains script "/nodeset.d/" = true) →
      SlurmSetup.script_timeout cfg script =
        SlurmSetup.resolve_timeout cfg.compute_startup_scripts_timeout) ∧
    (∀ script, SlurmSetup.strContains script "/controller.d/" = false →
      SlurmSetup.strContains script "/compute.d/" = false →
      SlurmSetup.strContains script "/nodeset.d/" = false →
      SlurmSetup.strContains script "/login.d/" = true →
      SlurmSetup.script_timeout cfg script =
        SlurmSetup.resolve_timeout cfg.login_startup_scripts_timeout) ∧
    (∀ t : Int, 0 < t → SlurmSetup.resolve_timeout (some t) = some t) ∧
    (∀ t : Int, t ≤ 0 → SlurmSetup.resolve_timeout (some t) = none) ∧
    SlurmSetup.resolve_timeout none = some 300 := by
  refine ⟨?_, ?_, ?_, ?_, ?_, ?_⟩
  · intro script h
    simp [SlurmSetup.script_timeout, SlurmSetup.script_timeout_raw,
      SlurmSetup.resolve_timeout, h]
  · intro script h hc
    rcases hc with hc | hc <;>
      simp [SlurmSetup.script_timeout, SlurmSetup.script_timeout_raw,
        SlurmSetup.resolve_timeout, h, hc]
  · intro script h hc hn hl
    simp [SlurmSetup.script_timeout, SlurmSetup.script_timeout_raw,
      SlurmSetup.resolve_timeout, h, hc, hn, hl]
  · intro t ht
    simp [SlurmSetup.resolve_timeout, SlurmSetup.normalize_timeout]
    omega
  · intro t ht
    simp only [SlurmSetup.resolve_timeout, SlurmSetup.normalize_timeout,
      Option.getD_some]
    rw [if_pos]
    omega
  · rfl

/-- Witness for C5 at concrete inputs: a script under `compute.d` with the
compute timeout configured to 17 resolves to 17; a configured value of -3
resolves to no timeout; an unset key resolves to 300. -/
theorem C5_timeout_resolution_witness :
    SlurmSetup.script_timeout ⟨none, some 17, some (-3)⟩
        "/slurm/custom_scripts/compute.d/s0.sh" = some 17 ∧
    (SlurmSetup.resolve_timeout (some 17) = some 17 ∧
      SlurmSetup.resolve_timeout (some (-3)) = none ∧
      SlurmSetup.resolve_timeout none = some 300) :=
  ⟨by
    rw [(C5_timeout_resolution ⟨none, some 17, some (-3)⟩).2.1
      "/slurm/custom_scripts/compute.d/s0.sh" (by decide) (Or.inl (by decide))]
    rfl,
   (C5_timeout_resolution ⟨none, some 17, some (-3)⟩).2.2.2.1 17 (by decide),
   (C5_timeout_resolution ⟨none, some 17, some (-3)⟩).2.2.2.2.1 (-3) (by decide),
   (C5_timeout_resolution ⟨none, some 17, some (-3)⟩).2.2.2.2.2⟩

/-- C6: hook scripts run sequentially in discovery order and the first one
that fails (non-zero exit, timeout, or not executable) stops the run with
that failure propagated: the attempted scripts are exactly the successful
prefix plus the failing script, so no later script is ever executed. -/
theorem C6_fail_fast (pre : List SlurmSetup.Script) (bad : SlurmSetup.Script)
    (post : List SlurmSetup.Script)
    (hpre : ∀ s ∈ pre, s.outcome = SlurmSetup.ScriptOutcome.exits 0)
    (hbad : bad.outcome ≠ SlurmSetup.ScriptOutcome.exits 0) :
    SlurmSetup.run_custom_scripts_loop (pre ++ bad :: post) =
      (pre.map SlurmSetup.Script.name ++ [bad.name], SlurmSetup.script_failure bad) := by
  have hbadf : ∃ f, SlurmSetup.script_failure bad = some f := by
    rcases hb : bad.outcome with rc | _ | _
    · refine ⟨.calledProcessError bad.name rc, ?_⟩
      have hrc : rc ≠ 0 := by rintro rfl; exact hbad hb
      simp [SlurmSetup.script_failure, hb, hrc]
    · exact ⟨.timeoutExpired bad.name, by simp [SlurmSetup.script_failure, hb]⟩
    · exact ⟨.osError bad.name, by simp [SlurmSetup.script_failure, hb]⟩
  induction pre with
  | nil =>
    rcases hbadf with ⟨f, hf⟩
    simp [SlurmSetup.run_custom_scripts_loop, hf]
  | cons s rest ih =>
    have hs : SlurmSetup.script_failure s = none := by
      simp [SlurmSetup.script_failure, hpre s (by simp)]
    have ih' := ih (fun x hx => hpre x (by simp [hx]))
    simp only [List.cons_append, SlurmSetup.run_custom_scripts_loop, hs,
      List.append_eq, ih', List.map_cons]

/-- Witness for C6: of three scripts where the second exits with status 1,
only the first two are attempted and the failure names the second. -/
theorem C6_fail_fast_witness :
    SlurmSetup.run_custom_scripts_loop
        [⟨"s0.sh", .exits 0⟩, ⟨"s1.sh", .exits 1⟩, ⟨"s2.sh", .exits 0⟩] =
      (["s0.sh", "s1.sh"],
        some (SlurmSetup.RunFailure.calledProcessError "s1.sh" 1)) :=
  C6_fail_fast [⟨"s0.sh", .exits 0⟩] ⟨"s1.sh", .exits 1⟩ [⟨"s2.sh", .exits 0⟩]
    (by decide) (by decide)

/-- Helper: closed form of `_my_chown` when the target ids are real ids
(not the `-1` sentinel): each id is set to its target exactly when its
guard is absent or matches, independently of the other. -/
theorem my_chown_eq (uid gid previous_uid previous_gid : Int) (n : SlurmSetup.FsNode)
    (hu : uid ≠ -1) (hg : gid ≠ -1) :
    SlurmSetup._my_chown uid gid previous_uid previous_gid n =
      ⟨if previous_uid = -1 ∨ n.uid = previous_uid then uid else n.uid,
       if previous_gid = -1 ∨ n.gid = previous_gid then gid else n.gid⟩ := by
  unfold SlurmSetup._my_chown
  by_cases h1 : previous_uid = -1 ∨ n.uid = previous_uid <;>
    by_cases h2 : previous_gid = -1 ∨ n.gid = previous_gid <;>
      simp [h1, h2, hu, hg]

/-- Helper: `_my_chown` with fixed arguments is idempotent on the
ownership state. -/
theorem my_chown_idem (uid gid previous_uid previous_gid : Int)
    (n : SlurmSetup.FsNode) (hu : uid ≠ -1) (hg : gid ≠ -1) :
    SlurmSetup._my_chown uid gid previous_uid previous_gid
        (SlurmSetup._my_chown uid gid previous_uid previous_gid n) =
      SlurmSetup._my_chown uid gid previous_uid previous_gid n := by
  rw [my_chown_eq uid gid previous_uid previous_gid n hu hg,
    my_chown_eq uid gid previous_uid previous_gid _ hu hg]
  by_cases h1 : previous_uid = -1 ∨ n.uid = previous_uid <;>
    by_cases h2 : previous_gid = -1 ∨ n.gid = previous_gid <;>
      simp [h1, h2, ite_self]

/-- C8: for the root and every descendant, the remap sets the uid to the
target iff the uid guard is absent (`-1`) or the current uid equals it,
independently likewise for the gid; an entry matching neither guard is
untouched; and re-applying the identical remap changes nothing. -/
theorem C8_recursive_chown_spec (uid gid previous_uid previous_gid : Int)
    (root : SlurmSetup.FsNode) (descendants : List SlurmSetup.FsNode)
    (hu : uid ≠ -1) (hg : gid ≠ -1) :
    (SlurmSetup.recursive_chown uid gid previous_uid previous_gid root descendants =
      (⟨if previous_uid = -1 ∨ root.uid = previous_uid then uid else root.uid,
        if previous_gid = -1 ∨ root.gid = previous_gid then gid else root.gid⟩,
       descendants.map (fun n =>
         ⟨if previous_uid = -1 ∨ n.uid = previous_uid then uid else n.uid,
          if previous_gid = -1 ∨ n.gid = previous_gid then gid else n.gid⟩))) ∧
    (∀ n : SlurmSetup.FsNode, previous_uid ≠ -1 → previous_gid ≠ -1 →
      n.uid ≠ previous_uid → n.gid ≠ previous_gid →
      SlurmSetup._my_chown uid gid previous_uid previous_gid n = n) ∧
    SlurmSetup.recursive_chown uid gid previous_uid previous_gid
        (SlurmSetup.recursive_chown uid gid previous_uid previous_gid
          root descendants).1
        (SlurmSetup.recursive_chown uid gid previous_uid previous_gid
          root descendants).2 =
      SlurmSetup.recursive_chown uid gid previous_uid previous_gid
        root descendants := by
  refine ⟨?_, ?_, ?_⟩
  · unfold SlurmSetup.recursive_chown
    rw [my_chown_eq uid gid previous_uid previous_gid root hu hg]
    refine Prod.ext rfl ?_
    exact List.map_congr_left (fun n _ =>
      my_chown_eq uid gid previous_uid previous_gid n hu hg)
  · intro n h1 h2 h3 h4
    rw [my_chown_eq uid gid previous_uid previous_gid n hu hg]
    simp [h1, h2, h3, h4]
  · unfold SlurmSetup.recursive_chown
    refine Prod.ext ?_ ?_
    · exact my_chown_idem uid gid previous_uid previous_gid root hu hg
    · simp only [List.map_map]
      exact List.map_congr_left (fun n _ =>
        my_chown_idem uid gid previous_uid previous_gid n hu hg)

/-- Witness for C8 at concrete inputs: remapping prev=10 → new=99 over
files owned by uids 10, 20, 30 changes only the uid-10 file, and
re-applying the remap is a no-op. -/
theorem C8_recursive_chown_spec_witness :
    SlurmSetup.recursive_chown 99 99 10 10 ⟨10, 10⟩ [⟨10, 10⟩, ⟨20, 20⟩, ⟨30, 30⟩] =
      (⟨99, 99⟩, [⟨99, 99⟩, ⟨20, 20⟩, ⟨30, 30⟩]) ∧
    SlurmSetup._my_chown 99 99 10 10 ⟨20, 20⟩ = ⟨20, 20⟩ ∧
    SlurmSetup.recursive_chown 99 99 10 10
        (SlurmSetup.recursive_chown 99 99 10 10 ⟨10, 10⟩
          [⟨10, 10⟩, ⟨20, 20⟩, ⟨30, 30⟩]).1
        (SlurmSetup.recursive_chown 99 99 10 10 ⟨10, 10⟩
          [⟨10, 10⟩, ⟨20, 20⟩, ⟨30, 30⟩]).2 =
      SlurmSetup.recursive_chown 99 99 10 10 ⟨10, 10⟩
        [⟨10, 10⟩, ⟨20, 20⟩, ⟨30, 30⟩] := by
  obtain ⟨h1, h2, h3⟩ := C8_recursive_chown_spec 99 99 10 10 ⟨10, 10⟩
    [⟨10, 10⟩, ⟨20, 20⟩, ⟨30, 30⟩] (by decide) (by decide)
  exact ⟨by rw [h1]; decide,
    h2 ⟨20, 20⟩ (by decide) (by decide) (by decide) (by decide), h3⟩

/-- C3 counterexample: with current ids (gid 10, uid 100), configured ids
(gid 20, uid 200), and both renames succeeding, the migration's
`recursive_chown` calls are not all guarded by the previous ids: the
home-directory call passes the default `-1` (no guard). -/
theorem C3_home_unguarded_cex :
    ¬ (∀ c ∈ SlurmSetup.migration_chowns
        (SlurmSetup.change_uid_gid_slurm 10 20 100 200 0 0),
        c.previous_uid = 100 ∧ c.previous_gid = 10) := by decide

/-- C3 amended: the ownership remap runs iff some rename was needed and
every attempted rename succeeded; it then covers exactly home,
configuration, logs and the resource root, with the latter three guarded
by the previous ids and the home remap unguarded; a failed `groupmod` or
`usermod` aborts the migration with no remap at all. -/
theorem C3_migration_amended (cur_gid gid cur_uid uid groupmod_rc usermod_rc : Int) :
    (groupmod_rc = 0 → usermod_rc = 0 →
      SlurmSetup.change_uid_gid_slurm cur_gid gid cur_uid uid groupmod_rc usermod_rc =
        .done (if cur_gid ≠ gid ∨ cur_uid ≠ uid then
            [⟨.home, uid, gid, -1, -1⟩,
             ⟨.etc, uid, gid, cur_uid, cur_gid⟩,
             ⟨.log, uid, gid, cur_uid, cur_gid⟩,
             ⟨.slurm, uid, gid, cur_uid, cur_gid⟩]
          else [])) ∧
    (cur_gid ≠ gid → groupmod_rc ≠ 0 →
      SlurmSetup.change_uid_gid_slurm cur_gid gid cur_uid uid groupmod_rc usermod_rc =
        .abortedGroupmod) ∧
    ((cur_gid = gid ∨ groupmod_rc = 0) → cur_uid ≠ uid → usermod_rc ≠ 0 →
      SlurmSetup.change_uid_gid_slurm cur_gid gid cur_uid uid groupmod_rc usermod_rc =
        .abortedUsermod) := by
  refine ⟨?_, ?_, ?_⟩
  · intro hgr hur
    by_cases h1 : cur_gid = gid <;> by_cases h2 : cur_uid = uid <;>
      simp [SlurmSetup.change_uid_gid_slurm, SlurmSetup.change_uid_gid_slurm_uid_step,
        SlurmSetup.migration_chown_calls, h1, h2, hgr, hur]
  · intro h1 h2
    simp [SlurmSetup.change_uid_gid_slurm, h1, h2]
  · intro h1 h2 h3
    rcases h1 with h1 | h1 <;>
      simp [SlurmSetup.change_uid_gid_slurm, SlurmSetup.change_uid_gid_slurm_uid_step,
        h1, h2, h3]

/-- Witness for C3 amended at concrete inputs: current (gid 10, uid 100),
configured (gid 20, uid 200), both renames succeed: all four directories
are remapped, home unguarded, the rest guarded by (100, 10). -/
theorem C3_migration_amended_witness :
    SlurmSetup.change_uid_gid_slurm 10 20 100 200 0 0 =
      .done [⟨.home, 200, 20, -1, -1⟩,
        ⟨.etc, 200, 20, 100, 10⟩,
        ⟨.log, 200, 20, 100, 10⟩,
        ⟨.slurm, 200, 20, 100, 10⟩] := by
  rw [(C3_migration_amended 10 20 100 200 0 0).1 rfl rfl]
  decide

/-- C9 counterexample: a dangling symlink at the link path is a prior
"symlink exists" state, yet it is not removed (`sl.exists()` is false for
it), and the recreation raises `FileExistsError` instead of leaving a
symlink to the target. -/
theorem C9_dangling_symlink_cex :
    SlurmSetup.configure_dirs_symlink "/usr/local/etc/slurm" true
        (.symlink "/stale/target" false) = .error "FileExistsError" := rfl

/-- C9 amended: a pre-existing symlink is removed and recreated pointing at
the target only when it resolves (`sl.exists() and sl.is_symlink()`); with
nothing at the link path the symlink is likewise created; any other prior
state — a dangling symlink or a non-symlink entry — is left in place and
the recreation raises `FileExistsError`. -/
theorem C9_symlink_reconciliation_amended (target : String) (target_exists : Bool)
    (sl : SlurmSetup.LinkState) :
    ((SlurmSetup.path_exists sl && SlurmSetup.path_is_symlink sl) = true ∨
        sl = .absent →
      SlurmSetup.configure_dirs_symlink target target_exists sl =
        .ok (.symlink target target_exists)) ∧
    ((SlurmSetup.path_exists sl && SlurmSetup.path_is_symlink sl) = false →
      sl ≠ .absent →
      SlurmSetup.configure_dirs_symlink target target_exists sl =
        .error "FileExistsError") := by
  rcases sl with _ | ⟨t, r⟩ | _
  · exact ⟨fun _ => rfl, fun _ h => absurd rfl h⟩
  · rcases r
    · refine ⟨?_, fun _ _ => rfl⟩
      rintro (h | h) <;> simp [SlurmSetup.path_exists] at h
    · exact ⟨fun _ => rfl, fun h => by simp [SlurmSetup.path_exists,
        SlurmSetup.path_is_symlink] at h⟩
  · refine ⟨?_, fun _ _ => rfl⟩
    rintro (h | h) <;> simp [SlurmSetup.path_is_symlink] at h

/-- Witness for C9 amended: a resolving symlink to an old target is
replaced by a symlink to the new target. -/
theorem C9_symlink_reconciliation_amended_witness :
    SlurmSetup.configure_dirs_symlink "/usr/local/etc/slurm" true
        (.symlink "/old/etc" true) =
      .ok (.symlink "/usr/local/etc/slurm" true) :=
  (C9_symlink_reconciliation_amended "/usr/local/etc/slurm" true
    (.symlink "/old/etc" true)).1 (Or.inl rfl)

/-- C2: for any role other than controller/compute/login, `main` logs the
unknown-role message, performs no role-specific provisioning, does not
raise, and still completes: the banner is rewritten and the completion
broadcast (plus the non-controller home notice) are sent. -/
theorem C2_unknown_role_completes (role : String)
    (h1 : role ≠ "controller") (h2 : role ≠ "compute") (h3 : role ≠ "login") :
    SlurmSetup.main_events role =
      [.startMotd, .getConfig, .setupCloudOps, .configureDirs,
        .logFatalUnknownRole role, .endMotdBanner, .wallSetupComplete role,
        .wallHomeNotice] ∧
    (∀ r, SlurmSetup.MainEvent.provision r ∉ SlurmSetup.main_events role) := by
  have hm : SlurmSetup.main_events role =
      [.startMotd, .getConfig, .setupCloudOps, .configureDirs,
        .logFatalUnknownRole role, .endMotdBanner, .wallSetupComplete role,
        .wallHomeNotice] := by
    simp [SlurmSetup.main_events, SlurmSetup.role_dispatch,
      SlurmSetup.end_motd_events, h1, h2, h3]
  refine ⟨hm, fun r => ?_⟩
  rw [hm]
  simp

/-- Witness for C2 at the concrete role "worker". -/
theorem C2_unknown_role_completes_witness :
    SlurmSetup.main_events "worker" =
      [.startMotd, .getConfig, .setupCloudOps, .configureDirs,
        .logFatalUnknownRole "worker", .endMotdBanner,
        .wallSetupComplete "worker", .wallHomeNotice] ∧
    SlurmSetup.MainEvent.provision "compute" ∉ SlurmSetup.main_events "worker" :=
  ⟨(C2_unknown_role_completes "worker" (by decide) (by decide) (by decide)).1,
   (C2_unknown_role_completes "worker" (by decide) (by decide) (by decide)).2
     "compute"⟩

/-- C10: any exception while fetching the `slurmd_feature` metadata
attribute is swallowed and treated as the attribute being unset, and the
`--conf="Feature=..."` and `-Z` options are then omitted from the generated
`SLURMD_OPTIONS`; a successful fetch, by contrast, appends both. -/
theorem C10_slurmd_feature_swallowed (host port e : String) :
    SlurmSetup.fetch_slurmd_feature (.raises e) = none ∧
    SlurmSetup.slurmd_options host port (.raises e) =
      ["--conf-server=\"" ++ host ++ ":" ++ port ++ "\""] ∧
    (∀ v, SlurmSetup.slurmd_options host port (.value v) =
      ["--conf-server=\"" ++ host ++ ":" ++ port ++ "\"",
        "--conf=\"Feature=" ++ v ++ "\"", "-Z"]) :=
  ⟨rfl, rfl, fun _ => rfl⟩

/-- Helper: a failed attempt logs a warning or an exception, never a sleep
event. -/
theorem isSleep_fetch_fail_event (o : SlurmSetup.FetchOutcome) :
    (SlurmSetup.fetch_fail_event o).isSleep = false := by
  cases o <;> rfl

/-- Helper: `get_config` with a source that fails `k` times and then
succeeds runs exactly the `k` logged failures with their backoffs, installs
the fetched configuration, sets the hybrid flag when a bucket was passed,
and exits the loop. -/
theorem get_config_loop_eq (bucket : Option String) (cfg k : Nat)
    (source : Nat → SlurmSetup.FetchOutcome) (fuel : Nat)
    (hfail : ∀ i, i < k → (source i).isOk = false)
    (hok : source k = .ok cfg) (hfuel : k < fuel) :
    SlurmSetup.get_config_loop bucket source fuel =
      some (SlurmSetup.retry_trace source k ++ [.installConfig cfg] ++
        (if bucket.isSome then [.setHybridSetup] else [])) := by
  induction k generalizing source fuel with
  | zero =>
    obtain ⟨f, rfl⟩ : ∃ f, fuel = f + 1 := ⟨fuel - 1, by omega⟩
    simp [SlurmSetup.get_config_loop, hok, SlurmSetup.retry_trace]
  | succ k ih =>
    obtain ⟨f, rfl⟩ : ∃ f, fuel = f + 1 := ⟨fuel - 1, by omega⟩
    have h0 := hfail 0 (by omega)
    have ih' := ih (fun i => source (i + 1)) f
      (fun i hi => hfail (i + 1) (by omega)) hok (by omega)
    rcases hs : source 0 with _ | _ | c
    · simp [SlurmSetup.get_config_loop, hs, ih', SlurmSetup.retry_trace]
    · simp [SlurmSetup.get_config_loop, hs, ih', SlurmSetup.retry_trace]
    · rw [hs] at h0
      simp [SlurmSetup.FetchOutcome.isOk] at h0

/-- Helper: the failure prefix contains exactly one 5-second sleep per
failed attempt. -/
theorem retry_trace_countP (k : Nat) :
    ∀ source, (SlurmSetup.retry_trace source k).countP
      SlurmSetup.GCEvent.isSleep = k := by
  induction k with
  | zero => intro source; rfl
  | succ k ih =>
    intro source
    simp [SlurmSetup.retry_trace, List.countP_cons, ih,
      isSleep_fetch_fail_event]
    rfl

/-- Helper: every sleep in the failure prefix is the fixed 5-second
backoff. -/
theorem retry_trace_sleep_eq (k : Nat) :
    ∀ source s, SlurmSetup.GCEvent.sleep s ∈
      SlurmSetup.retry_trace source k → s = 5 := by
  induction k with
  | zero => intro source s h; simp [SlurmSetup.retry_trace] at h
  | succ k ih =>
    intro source s h
    simp only [SlurmSetup.retry_trace, List.mem_cons] at h
    rcases h with h | h | h
    · exfalso
      rcases ho : source 0 <;> rw [ho] at h <;> simp [SlurmSetup.fetch_fail_event] at h
    · exact SlurmSetup.GCEvent.sleep.inj h
    · exact ih _ s h

/-- C7: a source that fails `k` times and then yields a valid configuration
makes the acquirer return (it never raises), with exactly `k` backoff
sleeps, each of 5 seconds and each following a failed attempt, none after
the success, and the successful configuration installed as the active one
before the loop exits. -/
theorem C7_config_acquisition (source : Nat → SlurmSetup.FetchOutcome)
    (bucket : Option String) (k fuel cfg : Nat)
    (hfail : ∀ i, i < k → (source i).isOk = false)
    (hok : source k = .ok cfg) (hfuel : k < fuel) :
    ∃ tr, SlurmSetup.get_config_loop bucket source fuel = some tr ∧
      tr = SlurmSetup.retry_trace source k ++ [.installConfig cfg] ++
        (if bucket.isSome then [.setHybridSetup] else []) ∧
      tr.countP SlurmSetup.GCEvent.isSleep = k ∧
      (∀ s, SlurmSetup.GCEvent.sleep s ∈ tr → s = 5) := by
  refine ⟨_, get_config_loop_eq bucket cfg k source fuel hfail hok hfuel, rfl,
    ?_, ?_⟩
  · rw [List.countP_append, List.countP_append, retry_trace_countP k source]
    rcases bucket <;> simp [SlurmSetup.GCEvent.isSleep]
  · intro s h
    rw [List.mem_append, List.mem_append] at h
    rcases h with (h | h) | h
    · exact retry_trace_sleep_eq k source s h
    · simp at h
    · rcases bucket <;> simp at h

/-- Witness for C7: a source that is not ready twice and then yields
configuration 7 produces two warn-sleep pairs followed by the install, and
returns. -/
theorem C7_config_acquisition_witness :
    SlurmSetup.get_config_loop none
        (fun i => if i < 2 then .notReady else .ok 7) 3 =
      some [.warnNotReady, .sleep 5, .warnNotReady, .sleep 5,
        .installConfig 7] := by
  obtain ⟨tr, h1, h2, h3, h4⟩ := C7_config_acquisition
    (fun i => if i < 2 then .notReady else .ok 7) none 2 3 7
    (by intro i hi; interval_cases i <;> rfl) rfl (by omega)
  rw [h1, h2]
  rfl
